import Mathlib

/-!
Verification of the openCowork session/task runtime against its specification.

The Python sources are shallowly embedded as executable Lean definitions:

* `Json`, `pyJsonLoads`           — model of Python `json.loads` (JSON values keep
                                    number lexemes verbatim; no claim under test
                                    compares numeric magnitudes of parsed JSON).
* orchestrator definitions        — `src/super_agent/orchestrator.py`.
* task-runner definitions         — `src/backend/core/task_runner.py`.
* session-manager stream model    — `src/backend/core/session_manager.py`.
* session-storage model           — `src/backend/core/session_storage.py`.
* user-input-handler model        — `src/backend/core/user_input_handler.py`.

Stateful Python (asyncio tasks mutating shared dicts) is embedded as explicit
state-passing: each method becomes a function from the component state (plus the
inputs consumed at its suspension points) to the new state and its observable
outputs.  Python dicts are association lists with Python's assignment semantics
(`dictSet` replaces in place, else appends).  Wall-clock reads (`time.time()`,
`datetime.utcnow()`) are passed in as parameters.
-/

/-- JSON values as produced by Python `json.loads`.  A number keeps its source
lexeme: the claims under verification never compare numeric magnitudes of parsed
JSON, only structure and string equality. -/
inductive Json where
  | null : Json
  | bool (b : Bool) : Json
  | num (lexeme : String) : Json
  | str (s : String) : Json
  | arr (elems : List Json) : Json
  | obj (fields : List (String × Json)) : Json
  deriving Repr

/-- JSON whitespace accepted between tokens by Python's `json` module. -/
def isJsonWs (c : Char) : Bool :=
  c = ' ' || c = '\t' || c = '\n' || c = '\r'

/-- Whitespace of Python's regex class `\s` and of `str.strip()` (ASCII part). -/
def isPyWs (c : Char) : Bool :=
  c = ' ' || c = '\t' || c = '\n' || c = '\r' || c = '\x0b' || c = '\x0c'

/-- Python `str.strip()` on a character list. -/
def pyStripList (cs : List Char) : List Char :=
  ((cs.dropWhile isPyWs).reverse.dropWhile isPyWs).reverse

/-- Python `str.strip()`. -/
def pyStrip (s : String) : String :=
  String.mk (pyStripList s.toList)

def hexDigitVal (c : Char) : Option Nat :=
  if '0' ≤ c ∧ c ≤ '9' then some (c.toNat - '0'.toNat)
  else if 'a' ≤ c ∧ c ≤ 'f' then some (c.toNat - 'a'.toNat + 10)
  else if 'A' ≤ c ∧ c ≤ 'F' then some (c.toNat - 'A'.toNat + 10)
  else none

/-- Parse the body of a JSON string (after the opening quote), decoding the
escape sequences `json.loads` accepts and rejecting raw control characters
(the module's default strict mode). -/
def parseStringBody : Nat → List Char → String → Option (String × List Char)
  | 0, _, _ => none
  | _ + 1, [], _ => none
  | fuel + 1, c :: rest, acc =>
    if c = '"' then some (acc, rest)
    else if c = '\\' then
      match rest with
      | [] => none
      | e :: rest2 =>
        if e = '"' then parseStringBody fuel rest2 (acc.push '"')
        else if e = '\\' then parseStringBody fuel rest2 (acc.push '\\')
        else if e = '/' then parseStringBody fuel rest2 (acc.push '/')
        else if e = 'b' then parseStringBody fuel rest2 (acc.push '\x08')
        else if e = 'f' then parseStringBody fuel rest2 (acc.push '\x0c')
        else if e = 'n' then parseStringBody fuel rest2 (acc.push '\n')
        else if e = 'r' then parseStringBody fuel rest2 (acc.push '\r')
        else if e = 't' then parseStringBody fuel rest2 (acc.push '\t')
        else if e = 'u' then
          match rest2 with
          | h1 :: h2 :: h3 :: h4 :: rest3 =>
            match hexDigitVal h1, hexDigitVal h2, hexDigitVal h3, hexDigitVal h4 with
            | some v1, some v2, some v3, some v4 =>
              parseStringBody fuel rest3
                (acc.push (Char.ofNat (((v1 * 16 + v2) * 16 + v3) * 16 + v4)))
            | _, _, _, _ => none
          | _ => none
        else none
    else if c.toNat < 0x20 then none
    else parseStringBody fuel rest (acc.push c)

def isDigit (c : Char) : Bool := '0' ≤ c && c ≤ '9'

/-- Lex an optional exponent part `([eE][+-]?[0-9]+)?` of a JSON number. -/
def lexExponent (cs : List Char) : Option (List Char × List Char) :=
  match cs with
  | e :: rest =>
    if e = 'e' ∨ e = 'E' then
      let (sgn, rest2) :=
        match rest with
        | s :: r2 => if s = '+' ∨ s = '-' then ([s], r2) else (([] : List Char), rest)
        | [] => (([] : List Char), rest)
      let ds := rest2.takeWhile isDigit
      if ds.isEmpty then none else some (e :: (sgn ++ ds), rest2.drop ds.length)
    else some ([], cs)
  | [] => some ([], cs)

def finishNumber (sign intPart fracPart rest : List Char) :
    Option (String × List Char) :=
  match lexExponent rest with
  | none => none
  | some (expPart, rest2) =>
    some (String.mk (sign ++ intPart ++ fracPart ++ expPart), rest2)

/-- Lex a JSON number per the grammar `-? (0 | [1-9][0-9]*) frac? exp?`,
returning the lexeme. -/
def lexNumber (cs : List Char) : Option (String × List Char) :=
  let (sign, cs1) :=
    match cs with
    | '-' :: rest => ([('-' : Char)], rest)
    | _ => (([] : List Char), cs)
  match cs1 with
  | [] => none
  | d :: _ =>
    if ¬ isDigit d then none
    else
      let intPart := if d = '0' then ['0'] else cs1.takeWhile isDigit
      let cs2 := cs1.drop intPart.length
      match cs2 with
      | '.' :: rest =>
        let ds := rest.takeWhile isDigit
        if ds.isEmpty then none
        else finishNumber sign intPart ('.' :: ds) (rest.drop ds.length)
      | _ => finishNumber sign intPart [] cs2

mutual

/-- Recursive-descent JSON value reader (fuel-indexed), modelling `json.loads`. -/
def parseValue : Nat → List Char → Option (Json × List Char)
  | 0, _ => none
  | fuel + 1, cs =>
    match cs.dropWhile isJsonWs with
    | [] => none
    | c :: rest =>
      if c = '{' then parseObjFields fuel rest true []
      else if c = '[' then parseArrElems fuel rest true []
      else if c = '"' then
        match parseStringBody fuel rest "" with
        | some (s, rest2) => some (Json.str s, rest2)
        | none => none
      else if c = 't' then
        if rest.take 3 = ['r', 'u', 'e'] then some (Json.bool true, rest.drop 3) else none
      else if c = 'f' then
        if rest.take 4 = ['a', 'l', 's', 'e'] then some (Json.bool false, rest.drop 4) else none
      else if c = 'n' then
        if rest.take 3 = ['u', 'l', 'l'] then some (Json.null, rest.drop 3) else none
      else if c = '-' ∨ isDigit c then
        match lexNumber (c :: rest) with
        | some (lx, rest2) => some (Json.num lx, rest2)
        | none => none
      else none

/-- Members of a JSON object after the opening brace.  `first` is true until a
member has been read (an immediate closing brace is only legal then). -/
def parseObjFields : Nat → List Char → Bool → List (String × Json) →
    Option (Json × List Char)
  | 0, _, _, _ => none
  | fuel + 1, cs, first, acc =>
    match cs.dropWhile isJsonWs with
    | [] => none
    | c :: rest =>
      if c = '}' ∧ first then some (Json.obj acc.reverse, rest)
      else
        if c ≠ '"' then none
        else
          match parseStringBody fuel rest "" with
          | none => none
          | some (key, rest2) =>
            match rest2.dropWhile isJsonWs with
            | ':' :: rest3 =>
              match parseValue fuel rest3 with
              | none => none
              | some (v, rest4) =>
                match rest4.dropWhile isJsonWs with
                | ',' :: rest5 => parseObjFields fuel rest5 false ((key, v) :: acc)
                | '}' :: rest5 => some (Json.obj ((key, v) :: acc).reverse, rest5)
                | _ => none
            | _ => none

/-- Elements of a JSON array after the opening bracket. -/
def parseArrElems : Nat → List Char → Bool → List Json → Option (Json × List Char)
  | 0, _, _, _ => none
  | fuel + 1, cs, first, acc =>
    match cs.dropWhile isJsonWs with
    | [] => none
    | c :: rest =>
      if c = ']' ∧ first then some (Json.arr acc.reverse, rest)
      else
        match parseValue fuel (c :: rest) with
        | none => none
        | some (v, rest2) =>
          match rest2.dropWhile isJsonWs with
          | ',' :: rest3 => parseArrElems fuel rest3 false (v :: acc)
          | ']' :: rest3 => some (Json.arr (v :: acc).reverse, rest3)
          | _ => none

end

/-- Model of Python `json.loads`: one JSON value, optionally surrounded by
whitespace; anything else raises `JSONDecodeError`, modelled as `none`. -/
def pyJsonLoads (s : String) : Option Json :=
  match parseValue (s.length + 8) s.toList with
  | some (v, rest) => if (rest.dropWhile isJsonWs).isEmpty then some v else none
  | none => none

/-- `d.get(k)` on a dict built by `json.loads`: duplicate keys in the source
text leave the last value in the dict, so lookup returns the last binding. -/
def pyDictGet (fields : List (String × Json)) (k : String) : Option Json :=
  (fields.filter (fun p => p.1 = k)).getLast?.map Prod.snd

/-- `d.get(k, default)`. -/
def pyDictGetD (fields : List (String × Json)) (k : String) (dflt : Json) : Json :=
  (pyDictGet fields k).getD dflt

/-- Python dict assignment `m[k] = v` / merge `{**m, k: v}`: replace the
binding in place if the key exists, otherwise append it. -/
def dictSet {α : Type} (m : List (String × α)) (k : String) (v : α) :
    List (String × α) :=
  if m.any (fun p => p.1 = k) then
    m.map (fun p => if p.1 = k then (k, v) else p)
  else m ++ [(k, v)]

/-- Lookup in a dict whose keys are unique by construction (every state dict in
the embedding is only updated through `dictSet`). -/
def assocGet {α : Type} (m : List (String × α)) (k : String) : Option α :=
  (m.find? (fun p => p.1 = k)).map Prod.snd

/-- Python truthiness of a JSON value (`if x:`). -/
def pyTruthy : Json → Bool
  | Json.null => false
  | Json.bool b => b
  | Json.num lx => ¬ (lx.toList.all (fun c => c = '0' ∨ c = '-' ∨ c = '.' ∨ c = '+'
      ∨ c = 'e' ∨ c = 'E'))
  | Json.str s => ¬ s.isEmpty
  | Json.arr xs => ¬ xs.isEmpty
  | Json.obj fs => ¬ fs.isEmpty


/-! ## Orchestrator: checker-verdict parsing (src/super_agent/orchestrator.py) -/

/-- First index at which `pat` occurs as a contiguous sublist of `cs`
(the leftmost-match position of a literal pattern for `re.search`). -/
def findSubIdx (pat : List Char) (cs : List Char) : Option Nat :=
  if pat.isPrefixOf cs then some 0
  else
    match cs with
    | [] => none
    | _ :: rest => (findSubIdx pat rest).map (· + 1)

def strContainsSub (hay needle : String) : Bool :=
  (findSubIdx needle.toList hay.toList).isSome

/-- Model of `re.search(r"```json\s*(.*?)\s*```", text, re.DOTALL).group(1)`:
the text between the first ` ```json ` marker and the next ` ``` ` after it,
stripped of surrounding whitespace (the greedy `\s*` pair); the pattern fails
when no closing marker follows the first opening marker (a later opening marker
would itself contain a closing one). -/
def extractFencedJson (text : String) : Option String :=
  let cs := text.toList
  match findSubIdx "```json".toList cs with
  | none => none
  | some i =>
    let after := cs.drop (i + 7)
    match findSubIdx "```".toList after with
    | none => none
    | some j => some (String.mk (pyStripList (after.take j)))

/-- Model of `re.search(r"\{.*\}", response_text, re.DOTALL).group(0)`:
with a greedy `.*` under DOTALL this is the span from the first brace that has
any closing brace after it — hence from the first `{` — through the last `}`
of the whole text, or no match when no `{` precedes a `}`. -/
def extractBraceSpan (text : String) : Option String :=
  let cs := text.toList
  match cs.findIdx? (fun c => c = '{') with
  | none => none
  | some a =>
    match (cs.reverse.findIdx? (fun c => c = '}')).map (fun k => cs.length - 1 - k) with
    | none => none
    | some b =>
      if a < b then some (String.mk ((cs.drop a).take (b - a + 1))) else none

/-- The string handed to `json.loads` by `_parse_checker_verdict`: the fenced
block when present, else the greedy brace span, else the whole response text. -/
def checkerJsonStr (text : String) : String :=
  match extractFencedJson text with
  | some s => s
  | none => (extractBraceSpan text).getD text

/-- `CheckerResult` (src/super_agent/models.py).  `next_input` is a Python
dict of JSON values. -/
structure CheckerResult where
  passed : Bool
  reason : Option String := none
  next_input : Option (List (String × Json)) := none
  deriving Repr

/-- Python `repr` of a JSON value (used inside containers by `str`).
String quoting uses the apostrophe character, written via its code point. -/
def aposChar : Char := Char.ofNat 39

mutual

def pyRepr : Json → String
  | Json.null => "None"
  | Json.bool true => "True"
  | Json.bool false => "False"
  | Json.num lx => lx
  | Json.str s => String.singleton aposChar ++ s ++ String.singleton aposChar
  | Json.arr xs => "[" ++ pyReprList xs ++ "]"
  | Json.obj fs => "\x7b" ++ pyReprFields fs ++ "\x7d"

def pyReprList : List Json → String
  | [] => ""
  | [x] => pyRepr x
  | x :: rest => pyRepr x ++ ", " ++ pyReprList rest

def pyReprFields : List (String × Json) → String
  | [] => ""
  | [(k, v)] => String.singleton aposChar ++ k ++ String.singleton aposChar ++ ": " ++ pyRepr v
  | (k, v) :: rest =>
    String.singleton aposChar ++ k ++ String.singleton aposChar ++ ": " ++ pyRepr v
      ++ ", " ++ pyReprFields rest

end

/-- Python `str()` / f-string rendering of a JSON value. -/
def pyStrOf : Json → String
  | Json.str s => s
  | j => pyRepr j

/-- The `CheckerResult` built by the `except (JSONDecodeError, AttributeError)`
branch of `_parse_checker_verdict`. -/
def checkerParsingError (responseText : String) : CheckerResult :=
  { passed := false
    reason := some "checker_parsing_error"
    next_input := some [("review_feedback",
      Json.str ("Checker output was malformed: " ++ responseText.take 200 ++ "..."))] }

/-- Python `verdict == "passed"` on the JSON value `data.get` returned. -/
def isPassedVerdict : Json → Bool
  | Json.str s => s = "passed"
  | _ => false

/-- `AsyncOrchestrator._parse_checker_verdict` (orchestrator.py lines 242-292)
as a function of the checker `LLMResult`'s `error` and `text` fields.
A successful `json.loads` of a non-dict raises `AttributeError` at
`data.get`, landing in the same except branch as a parse failure. -/
def parse_checker_verdict (llmError : Option String) (text : String) :
    CheckerResult :=
  match llmError with
  | some e =>
    { passed := false
      reason := some ("checker_error: " ++ e)
      next_input := some [("error_feedback", Json.str ("Checker failed: " ++ e))] }
  | none =>
    let jsonStr := checkerJsonStr text
    match pyJsonLoads jsonStr with
    | some (Json.obj fields) =>
      let verdict := pyDictGetD fields "verdict" (Json.str "failed")
      let reason := pyDictGetD fields "reason" (Json.str "")
      let feedback := pyDictGetD fields "feedback" (Json.str "")
      let verified := pyDictGetD fields "verified" (Json.arr [])
      if isPassedVerdict verdict then { passed := true, reason := some "verified_passed" }
      else
        { passed := false
          reason := some (pyStrOf verdict ++ ": " ++ pyStrOf reason)
          next_input := some [("review_verdict", verdict),
            ("review_feedback", feedback),
            ("review_reason", reason),
            ("verified_items", verified)] }
    | some _ => checkerParsingError text
    | none => checkerParsingError text


/-! ## Orchestrator: cycle-budget guard (src/super_agent/orchestrator.py)

`SessionState` is embedded with the fields that participate in `run_once`'s
pre-worker phase and in `_handle_max_cycles` / `_reset_session` / `_can_reset`;
`task_inputs` embeds `task.inputs`.  `store.save_session` / `append_log`
persist the same record and are not separately observable. -/

structure OrchSession where
  session_id : String
  status : String
  cycle_count : Int
  max_cycles : Int
  input_payload : List (String × Json)
  task_inputs : List (String × Json)
  reset_on_max_cycles : Bool
  reset_count : Int
  max_resets : Int
  last_error : Option String
  updated_at : String
  deriving Repr

/-- `Orchestrator._can_reset`. -/
def orch_can_reset (s : OrchSession) : Bool :=
  if s.max_resets ≤ 0 then false else s.reset_count < s.max_resets

/-- `Orchestrator._reset_session` (the reason string only reaches the log). -/
def orch_reset_session (s : OrchSession) (now : String) : OrchSession :=
  { s with reset_count := s.reset_count + 1
           cycle_count := 0
           status := "pending"
           input_payload := s.task_inputs
           updated_at := now }

/-- `Orchestrator._handle_max_cycles`. -/
def orch_handle_max_cycles (s : OrchSession) (now : String) : OrchSession :=
  if s.reset_on_max_cycles && orch_can_reset s then orch_reset_session s now
  else { s with status := "failed", last_error := some "max_cycles", updated_at := now }

/-- Outcome of the pre-worker phase of `AsyncOrchestrator.run_once`
(lines 306-316): return unchanged on a terminal status, divert to
`_handle_max_cycles` when the cycle budget is spent, otherwise mark running
and proceed to the Worker invocation. -/
inductive RunOncePre where
  | terminal (s : OrchSession)
  | maxCycles (s : OrchSession)
  | invokeWorker (s : OrchSession)
  deriving Repr

def run_once_pre (s : OrchSession) (now : String) : RunOncePre :=
  if s.status = "completed" ∨ s.status = "failed" then .terminal s
  else if s.cycle_count ≥ s.max_cycles then .maxCycles (orch_handle_max_cycles s now)
  else .invokeWorker { s with status := "running", updated_at := now }

/-! ## TaskRunner (src/backend/core/task_runner.py)

State-passing embedding.  A `PyDict` is a Python dict of JSON values; events
are such dicts.  `diskCurrent` / `diskEvents` embed `tasks/<sid>/current.json`
and `tasks/<sid>/events.jsonl` (an unlinked events file is the empty log).
`now` stands for `int(time.time() * 1000)`; ISO timestamps are passed in. -/

abbrev PyDict := List (String × Json)

/-- One subscriber queue (`asyncio.Queue`): `maxsize = 0` means unbounded. -/
structure SubQueue where
  maxsize : Nat
  items : List PyDict
  deriving Repr

/-- `TaskExecution` dataclass.  `error` is whatever JSON value
`event.get("content", "Unknown error")` produced. -/
structure TaskExecution where
  task_id : String
  session_id : String
  prompt : String
  status : String
  started_at : String
  completed_at : Option String := none
  error : Option Json := none
  was_viewed : Bool := false
  event_count : Nat := 0
  deriving Repr

/-- `SessionTaskState` (the asyncio task handle and file handle carry no
observable state of their own). -/
structure SessionTaskState where
  execution : Option TaskExecution := none
  events : List PyDict := []
  subscribers : List SubQueue := []
  deriving Repr

structure TaskRunnerState where
  sessions : List (String × SessionTaskState) := []
  diskCurrent : List (String × TaskExecution) := []
  diskEvents : List (String × List PyDict) := []
  deriving Repr

/-- `queue.put_nowait(e)` guarded by `except asyncio.QueueFull: pass` —
a full bounded queue drops the event, every other queue appends it. -/
def pushNowait (e : PyDict) (q : SubQueue) : SubQueue :=
  if q.maxsize ≠ 0 ∧ q.items.length ≥ q.maxsize then q
  else { q with items := q.items ++ [e] }

/-- `TaskRunner._save_execution` composed into the state. -/
def saveExecution (st : TaskRunnerState) (ex : TaskExecution) : TaskRunnerState :=
  { st with diskCurrent := dictSet st.diskCurrent ex.session_id ex }

/-- `TaskRunner._append_event` (lines 150-178): stamp the event, extend the
in-memory cache and the on-disk log, refresh the execution's event count, and
try-push to every subscriber queue. -/
def append_event (st : TaskRunnerState) (sid : String) (event : PyDict)
    (now : Nat) : TaskRunnerState :=
  match assocGet st.sessions sid with
  | none => st
  | some state =>
    let e := dictSet event "timestamp" (Json.num (toString now))
    let events := state.events ++ [e]
    let execution := state.execution.map (fun ex => { ex with event_count := events.length })
    let state2 : SessionTaskState :=
      { execution := execution
        events := events
        subscribers := state.subscribers.map (pushNowait e) }
    let st2 : TaskRunnerState :=
      { st with sessions := dictSet st.sessions sid state2
                diskEvents := dictSet st.diskEvents sid
                  ((assocGet st.diskEvents sid).getD [] ++ [e]) }
    match execution with
    | some ex => saveExecution st2 ex
    | none => st2

/-- `TaskRunner.start_task` (lines 180-235).  The running-task check raises
`ValueError` before any mutation; otherwise a fresh execution replaces the
session state, the old events file is unlinked, and the new record persisted.
The result carries the task id or the raised error message. -/
def start_task (st : TaskRunnerState) (sid prompt task_id started_at : String) :
    TaskRunnerState × Except String String :=
  let running : Bool :=
    match assocGet st.sessions sid with
    | some state => state.execution.any (fun ex => ex.status = "running")
    | none => false
  if running then
    (st, Except.error ("Session " ++ sid ++ " already has a running task"))
  else
    let execution : TaskExecution :=
      { task_id := task_id, session_id := sid, prompt := prompt
        status := "running", started_at := started_at }
    let st2 : TaskRunnerState :=
      { sessions := dictSet st.sessions sid
          ({ execution := some execution, events := [], subscribers := [] })
        diskCurrent := st.diskCurrent
        diskEvents := dictSet st.diskEvents sid [] }
    (saveExecution st2 execution, Except.ok task_id)

/-- One iteration of the `async for` body of `TaskRunner._run_task`
(lines 247-263): append the produced event, then flip the execution on a
terminal `done` / `error` event type and persist it. -/
def run_task_step (st : TaskRunnerState) (sid : String) (event : PyDict)
    (now : Nat) (completedAt : String) : TaskRunnerState :=
  let st1 := append_event st sid event now
  let ty := pyDictGet event "type"
  let setTerminal (f : TaskExecution → TaskExecution) : TaskRunnerState :=
    match assocGet st1.sessions sid with
    | none => st1
    | some state =>
      match state.execution with
      | none => st1
      | some ex =>
        let ex2 := f ex
        saveExecution
          ({ st1 with sessions := dictSet st1.sessions sid ({ state with execution := some ex2 }) })
          ex2
  match ty with
  | some (Json.str "done") =>
    setTerminal (fun ex => { ex with status := "completed", completed_at := some completedAt })
  | some (Json.str "error") =>
    setTerminal (fun ex =>
      { ex with status := "error"
                error := some (pyDictGetD event "content" (Json.str "Unknown error"))
                completed_at := some completedAt })
  | _ => st1

/-- The per-session status dict built by `TaskRunner.get_all_status`. -/
def statusEntry (ex : TaskExecution) : PyDict :=
  [("status", Json.str ex.status),
   ("has_unread", Json.bool ((ex.status = "completed" ∨ ex.status = "error")
     ∧ ¬ ex.was_viewed)),
   ("task_id", Json.str ex.task_id),
   ("error", ex.error.getD Json.null)]

/-- `TaskRunner.get_all_status` (lines 287-301). -/
def get_all_status (st : TaskRunnerState) : List (String × PyDict) :=
  st.sessions.filterMap (fun p =>
    match p.2.execution with
    | some ex => some (p.1, statusEntry ex)
    | none => none)

/-- `TaskRunner.mark_viewed` (lines 337-343). -/
def mark_viewed (st : TaskRunnerState) (sid : String) : TaskRunnerState :=
  match assocGet st.sessions sid with
  | none => st
  | some state =>
    match state.execution with
    | none => st
    | some ex =>
      let ex2 := { ex with was_viewed := true }
      saveExecution
        ({ st with sessions := dictSet st.sessions sid ({ state with execution := some ex2 }) })
        ex2

/-- `TaskRunner.is_running` (lines 345-352). -/
def is_running (st : TaskRunnerState) (sid : String) : Bool :=
  match assocGet st.sessions sid with
  | some state => state.execution.any (fun ex => ex.status = "running")
  | none => false

/-- `TaskRunner.subscribe` (lines 303-335), up to its first suspension on the
live queue: the replayed cache prefix, plus — when the generator does not
return after the replay — the state extended with this subscriber's fresh
bounded queue (`asyncio.Queue(maxsize=1000)`). -/
def subscribe (st : TaskRunnerState) (sid : String) :
    List PyDict × Option TaskRunnerState :=
  match assocGet st.sessions sid with
  | none => ([], none)
  | some state =>
    if state.execution.any (fun ex => ex.status = "completed" ∨ ex.status = "error") then
      (state.events, none)
    else
      let q : SubQueue := { maxsize := 1000, items := [] }
      let state2 : SessionTaskState := { state with subscribers := state.subscribers ++ [q] }
      (state.events, some { st with sessions := dictSet st.sessions sid state2 })


/-- `SessionManager` (src/backend/core/session_manager.py) defines no method
named `interrupt_session`; the attribute lookup
`session_manager.interrupt_session` inside `TaskRunner.interrupt_session`
therefore raises `AttributeError` whenever it is reached.  `none` embeds the
missing attribute; `some b` would be the return value of such a method. -/
def sessionManagerInterrupt : Option Bool := none

def interruptAttributeError : String :=
  String.singleton aposChar ++ "SessionManager" ++ String.singleton aposChar
    ++ " object has no attribute " ++ String.singleton aposChar
    ++ "interrupt_session" ++ String.singleton aposChar

/-- `TaskRunner.interrupt_session` (lines 361-413).  After the running-task
checks it looks up `session_manager.interrupt_session`; since that attribute
does not exist the call raises before any state is mutated.  The remainder of
the method (status flip to completed, synthetic `system` + `done` events) is
embedded under the unreachable `some` branch exactly as written. -/
def interrupt_session (st : TaskRunnerState) (sid : String)
    (completedAt : String) (now : Nat) : TaskRunnerState × Except String Bool :=
  match assocGet st.sessions sid with
  | none => (st, Except.ok false)
  | some state =>
    match state.execution with
    | none => (st, Except.ok false)
    | some ex =>
      if ex.status ≠ "running" then (st, Except.ok false)
      else
        match sessionManagerInterrupt with
        | none => (st, Except.error interruptAttributeError)
        | some _ =>
          let ex2 := { ex with status := "completed"
                               completed_at := some completedAt
                               error := none }
          let st1 := saveExecution
            ({ st with sessions := dictSet st.sessions sid ({ state with execution := some ex2 }) })
            ex2
          let st2 := append_event st1 sid
            [("type", Json.str "system"), ("content", Json.str "Task interrupted by user")] now
          let st3 := append_event st2 sid
            [("type", Json.str "done"),
             ("content", Json.obj [("interrupted", Json.bool true)])] now
          (st3, Except.ok true)

/-- The error frame sent by the `query` handler for a busy session. -/
def sessionBusyFrame (sid : String) : PyDict :=
  [("type", Json.str "error"),
   ("content", Json.str "Session already has a running task"),
   ("metadata", Json.obj [("session_id", Json.str sid)])]

/-- The running-session guard of the `query` frame handler in
`websocket_multiplexed` (src/backend/routers/agent.py lines 844-851): a busy
session is answered with the error frame and the handler continues without
touching any state; `none` means the handler proceeds to start the task. -/
def websocket_query_guard (st : TaskRunnerState) (sid : String) : Option PyDict :=
  if sid ≠ "" ∧ is_running st sid then some (sessionBusyFrame sid) else none

/-! ## Session storage (src/backend/core/session_storage.py)

The sessions directory is embedded as the file contents: `Option String` for a
single session's file (`none` = file does not exist), and a list of
(name, contents) pairs for the directory listing.  `Session.from_dict` /
`SessionMessage.from_dict` (src/backend/models/session.py) index required keys
(raising `KeyError` when absent) and do not validate value types. -/

structure SessionMessageStored where
  id : Json
  role : Json
  content : Json
  timestamp : Json
  blocks : Json
  deriving Repr

structure SessionStored where
  id : Json
  title : Json
  created_at : Json
  updated_at : Json
  messages : List SessionMessageStored
  sdk_session_id : Json
  last_model_name : Json
  last_endpoint_name : Json
  last_security_mode : Json
  deriving Repr

/-- `SessionMessage.from_dict`: `none` embeds a raised exception. -/
def sessionMessageFromDict (j : Json) : Option SessionMessageStored :=
  match j with
  | Json.obj fs =>
    match pyDictGet fs "id", pyDictGet fs "role",
        pyDictGet fs "content", pyDictGet fs "timestamp" with
    | some i, some r, some c, some t =>
      some { id := i, role := r, content := c, timestamp := t
             blocks := (pyDictGet fs "blocks").getD Json.null }
    | _, _, _, _ => none
  | _ => none

/-- `Session.from_dict`: `none` embeds a raised exception.  The messages value
is iterated, so an empty string or empty dict iterates zero times while any
other non-list value fails on the first element. -/
def sessionFromDict (j : Json) : Option SessionStored :=
  match j with
  | Json.obj fs =>
    match pyDictGet fs "id", pyDictGet fs "title",
        pyDictGet fs "created_at", pyDictGet fs "updated_at" with
    | some i, some ti, some ca, some ua =>
      let msgsJ := pyDictGetD fs "messages" (Json.arr [])
      let msgs : Option (List SessionMessageStored) :=
        match msgsJ with
        | Json.arr xs => xs.mapM sessionMessageFromDict
        | Json.str s => if s.isEmpty then some [] else none
        | Json.obj kvs => if kvs.isEmpty then some [] else none
        | _ => none
      match msgs with
      | none => none
      | some ms =>
        some { id := i, title := ti, created_at := ca, updated_at := ua
               messages := ms
               sdk_session_id := (pyDictGet fs "sdk_session_id").getD Json.null
               last_model_name := (pyDictGet fs "last_model_name").getD Json.null
               last_endpoint_name := (pyDictGet fs "last_endpoint_name").getD Json.null
               last_security_mode := (pyDictGet fs "last_security_mode").getD Json.null }
    | _, _, _, _ => none
  | _ => none

/-- `get_session` (session_storage.py lines 54-70): a missing file returns
`None`; a file whose JSON fails to parse or whose dict fails `from_dict` is
caught by `except Exception` and also returns `None`. -/
def get_session (file : Option String) : Option SessionStored :=
  match file with
  | none => none
  | some content =>
    match pyJsonLoads content with
    | some j => sessionFromDict j
    | none => none

/-- `Session.to_summary`. -/
def session_to_summary (s : SessionStored) : PyDict :=
  [("id", s.id), ("title", s.title), ("created_at", s.created_at),
   ("updated_at", s.updated_at),
   ("message_count", Json.num (toString s.messages.length)),
   ("last_model_name", s.last_model_name),
   ("last_endpoint_name", s.last_endpoint_name),
   ("last_security_mode", s.last_security_mode)]

def digitsToNat (ds : List Char) : Nat :=
  ds.foldl (fun acc c => acc * 10 + (c.toNat - 48)) 0

/-- Value of a JSON number lexeme as mantissa × 10 ^ exponent. -/
def numLexVal (lx : String) : Int × Int :=
  let cs := lx.toList
  let (neg, cs1) :=
    match cs with
    | '-' :: r => (true, r)
    | _ => (false, cs)
  let intDs := cs1.takeWhile isDigit
  let cs2 := cs1.drop intDs.length
  let (fracDs, cs3) :=
    match cs2 with
    | '.' :: r => (r.takeWhile isDigit, r.drop (r.takeWhile isDigit).length)
    | _ => ([], cs2)
  let expV : Int :=
    match cs3 with
    | e :: r =>
      if e = 'e' ∨ e = 'E' then
        match r with
        | '-' :: r2 => -(Int.ofNat (digitsToNat (r2.takeWhile isDigit)))
        | '+' :: r2 => Int.ofNat (digitsToNat (r2.takeWhile isDigit))
        | _ => Int.ofNat (digitsToNat (r.takeWhile isDigit))
      else 0
    | [] => 0
  let mant : Int := Int.ofNat (digitsToNat (intDs ++ fracDs))
  ((if neg then -mant else mant), expV - fracDs.length)

def scaledLt (a b : Int × Int) : Bool :=
  if a.2 ≥ b.2 then a.1 * (10 : Int) ^ (a.2 - b.2).toNat < b.1
  else a.1 < b.1 * (10 : Int) ^ (b.2 - a.2).toNat

/-- Python `<` on sort keys as used by `list_sessions`: numbers (bools count
as 0/1) compare numerically, strings lexicographically.  Mixed types would
raise `TypeError` in Python and do not arise for the summaries under test. -/
def pySortKeyLt (x y : Json) : Bool :=
  let numOf : Json → Option (Int × Int) := fun j =>
    match j with
    | Json.bool b => some (if b then 1 else 0, 0)
    | Json.num lx => some (numLexVal lx)
    | _ => none
  match numOf x, numOf y with
  | some a, some b => scaledLt a b
  | _, _ =>
    match x, y with
    | Json.str s1, Json.str s2 => decide (s1 < s2)
    | _, _ => false

def summarySortKey (d : PyDict) : Json := (pyDictGet d "updated_at").getD Json.null

/-- Stable descending insertion: place `x` before the first element whose key
is strictly smaller, after any element with an equal key (the stability that
`list.sort(key=..., reverse=True)` guarantees). -/
def insertDesc (x : PyDict) : List PyDict → List PyDict
  | [] => [x]
  | y :: ys =>
    if pySortKeyLt (summarySortKey y) (summarySortKey x) then x :: y :: ys
    else y :: insertDesc x ys

def sortSummariesDesc (xs : List PyDict) : List PyDict :=
  xs.foldl (fun acc x => insertDesc x acc) []

/-- `list_sessions` (session_storage.py lines 31-51): each file is loaded under
`try`, failures are logged and skipped, and the surviving summaries are sorted
by `updated_at`, newest first. -/
def list_sessions (files : List (String × String)) : List PyDict :=
  sortSummariesDesc (files.filterMap (fun p =>
    (pyJsonLoads p.2 >>= sessionFromDict).map session_to_summary))

/-! ## User-input handler (src/backend/core/user_input_handler.py) -/

/-- How a pending ask-user future gets settled: `resolved v` embeds
`future.set_result(v)` (from `receive_user_response` the user's answers,
from `cancel_request` `None`); `timeout` embeds `asyncio.TimeoutError`. -/
inductive AskOutcome where
  | resolved (answers : Json)
  | timeout
  deriving Repr

def ask_user_event (request_id : String) (questions : Json) (timeoutVal : Json)
    (sid : String) : PyDict :=
  [("type", Json.str "ask_user"),
   ("content", Json.obj [("request_id", Json.str request_id),
     ("questions", questions), ("timeout", timeoutVal)]),
   ("metadata", Json.obj [("session_id", Json.str sid)])]

def ask_user_answered_event (request_id : String) (answers : Json)
    (sid : String) : PyDict :=
  [("type", Json.str "ask_user_result"),
   ("content", Json.obj [("request_id", Json.str request_id),
     ("status", Json.str "answered"), ("answers", answers)]),
   ("metadata", Json.obj [("session_id", Json.str sid)])]

def ask_user_timeout_event (request_id : String) (sid : String) : PyDict :=
  [("type", Json.str "ask_user_result"),
   ("content", Json.obj [("request_id", Json.str request_id),
     ("status", Json.str "timeout")]),
   ("metadata", Json.obj [("session_id", Json.str sid)])]

/-- `UserInputHandler.request_user_input` (lines 40-144) as a function of the
outcome of its wait: append the `ask_user` event (through the task runner when
a session id is given), wait, and on a truthy answer append the answered
`ask_user_result`; the Python return value is `answers` (or `None` on
timeout), so an empty answers dict is returned as-is but appends no result
event because `if session_id and answers:` is false. -/
def request_user_input (st : TaskRunnerState) (request_id : String)
    (questions : Json) (sid : String) (timeoutVal : Json)
    (outcome : AskOutcome) (now : Nat) : TaskRunnerState × Json :=
  let st1 :=
    if sid ≠ "" then append_event st sid (ask_user_event request_id questions timeoutVal sid) now
    else st
  match outcome with
  | AskOutcome.resolved answers =>
    if sid ≠ "" ∧ pyTruthy answers then
      (append_event st1 sid (ask_user_answered_event request_id answers sid) now, answers)
    else (st1, answers)
  | AskOutcome.timeout =>
    (if sid ≠ "" then append_event st1 sid (ask_user_timeout_event request_id sid) now
     else st1, Json.null)

/-- The SDK permission-callback result (`PermissionResultAllow` /
`PermissionResultDeny` from claude_agent_sdk.types). -/
inductive PermissionDecision where
  | allow (updated_input : Option Json)
  | deny (message : String)
  deriving Repr

/-- The `AskUserQuestion` arm of the `can_use_tool` callback built by
`SessionManager._create_can_use_tool` (session_manager.py lines 202-230):
a truthy answers value allows the tool with the questions and answers merged
into its input; anything falsy (no answer, timeout, or an empty answers
object) denies it. -/
def ask_user_question_decision (questions answers : Json) : PermissionDecision :=
  if pyTruthy answers then
    PermissionDecision.allow (some (Json.obj [("questions", questions), ("answers", answers)]))
  else PermissionDecision.deny "User did not provide an answer"


/-! ## SessionManager.stream_message (src/backend/core/session_manager.py)

The async generator is embedded as a function from the sequence of messages
the SDK client delivers (plus an optional exception the client raises after
them) to the list of `StreamEvent`s the generator yields.  SDK stream events
(`claude_agent_sdk` `StreamEvent`) arrive as typed payloads; their translation
`_process_stream_event` (src/backend/core/agent_client.py lines 237-362) is
embedded alongside, threading its `block_state` dict. -/

structure UsageCount where
  input_tokens : Int
  output_tokens : Int
  total_tokens : Int
  deriving Repr

/-- Our `StreamEvent` dataclass (agent_client.py). -/
structure StreamEvt where
  type : String
  content : Json := Json.null
  metadata : List (String × Json) := []
  id : Option String := none
  usage : Option UsageCount := none
  deriving Repr

/-- `content_block` payload of a `content_block_start` SDK event.  Optional
fields embed `content_block.get(...)` defaults. -/
inductive SdkBlockStart where
  | text
  | toolUse (id : Option String) (name : Option String)
  | thinking
  | other
  deriving Repr

/-- `delta` payload of a `content_block_delta` SDK event. -/
inductive SdkDelta where
  | textDelta (text : String)
  | thinkingDelta (text : String)
  | inputJsonDelta (partial_json : String)
  | other
  deriving Repr

/-- `sdk_event.event` as read by `_process_stream_event`. -/
inductive RawSdkEvent where
  | messageStart
  | contentBlockStart (index : Int) (block : SdkBlockStart)
  | contentBlockDelta (index : Int) (delta : SdkDelta)
  | contentBlockStop (index : Int)
  | messageDelta (usage : Option (Int × Int))
  | other
  deriving Repr

/-- An entry of the `block_state` dict (int index → block info). -/
inductive BlockInfo where
  | text (id : String) (content : String)
  | tool (id : String) (name : String) (input_buffer : String)
  | thinking (id : String) (content : String)
  deriving Repr

/-- `block_state`: integer-indexed block entries plus the `"_usage"` entry. -/
structure BlockState where
  blocks : List (Int × BlockInfo)
  usage : Option UsageCount
  deriving Repr

def blockGet (m : List (Int × BlockInfo)) (k : Int) : Option BlockInfo :=
  (m.find? (fun p => p.1 = k)).map Prod.snd

def blockSet (m : List (Int × BlockInfo)) (k : Int) (v : BlockInfo) :
    List (Int × BlockInfo) :=
  if m.any (fun p => p.1 = k) then m.map (fun p => if p.1 = k then (k, v) else p)
  else m ++ [(k, v)]

def blockPop (m : List (Int × BlockInfo)) (k : Int) : List (Int × BlockInfo) :=
  m.filter (fun p => p.1 ≠ k)

def jint (n : Int) : Json := Json.num (toString n)

/-- `_process_stream_event` (agent_client.py lines 237-362). -/
def process_stream_event (uuid : String) (raw : RawSdkEvent) (bs : BlockState) :
    List StreamEvt × BlockState :=
  match raw with
  | RawSdkEvent.messageStart => ([{ type := "start" }], bs)
  | RawSdkEvent.contentBlockStart index block =>
    match block with
    | SdkBlockStart.text =>
      let blockId := "text_" ++ uuid ++ "_" ++ toString index
      ([{ type := "text_start", id := some blockId }],
       { bs with blocks := blockSet bs.blocks index (BlockInfo.text blockId "") })
    | SdkBlockStart.toolUse oid oname =>
      let toolId := oid.getD ("tool_" ++ toString index)
      let toolName := oname.getD "unknown"
      ([{ type := "tool_input_start", id := some toolId
          content := Json.obj [("name", Json.str toolName)] }],
       { bs with blocks := blockSet bs.blocks index (BlockInfo.tool toolId toolName "") })
    | SdkBlockStart.thinking =>
      let blockId := "thinking_" ++ toString index
      ([{ type := "thinking_start", id := some blockId }],
       { bs with blocks := blockSet bs.blocks index (BlockInfo.thinking blockId "") })
    | SdkBlockStart.other => ([], bs)
  | RawSdkEvent.contentBlockDelta index delta =>
    match blockGet bs.blocks index with
    | none => ([], bs)
    | some blk =>
      match delta, blk with
      | SdkDelta.textDelta t, BlockInfo.text bid content =>
        ([{ type := "text_delta", id := some bid, content := Json.str t }],
         { bs with blocks := blockSet bs.blocks index (BlockInfo.text bid (content ++ t)) })
      | SdkDelta.thinkingDelta t, BlockInfo.thinking bid content =>
        ([{ type := "thinking_delta", id := some bid, content := Json.str t }],
         { bs with blocks := blockSet bs.blocks index (BlockInfo.thinking bid (content ++ t)) })
      | SdkDelta.inputJsonDelta p, BlockInfo.tool bid nm buf =>
        ([{ type := "tool_input_delta", id := some bid, content := Json.str p }],
         { bs with blocks := blockSet bs.blocks index (BlockInfo.tool bid nm (buf ++ p)) })
      | _, _ => ([], bs)
  | RawSdkEvent.contentBlockStop index =>
    match blockGet bs.blocks index with
    | none => ([], bs)
    | some blk =>
      let bs2 := { bs with blocks := blockPop bs.blocks index }
      match blk with
      | BlockInfo.text bid content =>
        ([{ type := "text_end", id := some bid }] ++
          (if content ≠ "" then [{ type := "text", content := Json.str content }] else []),
         bs2)
      | BlockInfo.tool bid _ _ => ([{ type := "tool_input_end", id := some bid }], bs2)
      | BlockInfo.thinking bid content =>
        ([{ type := "thinking_end", id := some bid }] ++
          (if content ≠ "" then [{ type := "thinking", content := Json.str content }] else []),
         bs2)
  | RawSdkEvent.messageDelta usage =>
    match usage with
    | some (inp, outp) =>
      let u : UsageCount :=
        { input_tokens := inp, output_tokens := outp, total_tokens := inp + outp }
      ([], { bs with usage := some u })
    | none => ([], bs)
  | RawSdkEvent.other => ([], bs)

/-- Blocks of an `AssistantMessage`. -/
inductive AsstBlock where
  | textB (text : String)
  | toolUseB (id : String) (name : String) (input : Json)
  | thinkingB (thinking : String)
  | otherB
  deriving Repr

/-- Blocks of a list-content `UserMessage`. -/
inductive UserBlock where
  | toolResultB (tool_use_id : String) (content : Json) (is_error : Bool)
  | otherUB
  deriving Repr

/-- One message delivered by `session.client.receive_messages()`.
`assistant`'s `error` models the defensively-read `msg.error` attribute;
`result` carries `is_error`, `result`, `subtype`, `total_cost_usd`, `usage`
and `duration_ms` of a `ResultMessage`. -/
inductive SdkMsg where
  | streamEvt (uuid : String) (raw : RawSdkEvent)
  | system (subtype : String) (data : Option (List (String × Json)))
  | assistant (error : Option String) (blocks : List AsstBlock)
  | userStr (content : String)
  | userBlocks (blocks : List UserBlock)
  | result (is_error : Bool) (resultVal : Option String) (subtype : String)
      (cost : Json) (usage : Json) (duration : Json)
  deriving Repr

def SdkMsg.isResult : SdkMsg → Bool
  | SdkMsg.result _ _ _ _ _ _ => true
  | _ => false

/-- The tag-extraction regex of the slash-command branch:
`re.search(r"<open>(.*?)</close>", content, re.DOTALL)` — the text between the
first opening tag and the first closing tag after it, then `.strip()`ed. -/
def extractTag (openTag closeTag : String) (s : String) : Option String :=
  let cs := s.toList
  match findSubIdx openTag.toList cs with
  | none => none
  | some i =>
    let after := cs.drop (i + openTag.length)
    match findSubIdx closeTag.toList after with
    | none => none
    | some j => some (pyStrip (String.mk (after.take j)))

def stderrOpen : String := "<local-command-stderr>"
def stderrClose : String := "</local-command-stderr>"
def stdoutOpen : String := "<local-command-stdout>"
def stdoutClose : String := "</local-command-stdout>"

/-- The `UserMessage`-with-string-content branch (session_manager.py lines
397-421): stderr tags replace the content and set `is_error`; stdout tags are
then looked for inside the (possibly replaced) content. -/
def slashCommandCleanup (content : String) : String × Bool :=
  let (c1, isErr) :=
    match extractTag stderrOpen stderrClose content with
    | some t => (t, true)
    | none => (content, false)
  match extractTag stdoutOpen stdoutClose c1 with
  | some t => (t, isErr)
  | none => (c1, isErr)

/-- The `TextBlock` condition of the `AssistantMessage` branch:
`block.text and ('Error:' in block.text or 'error' in block.text.lower()[:50])`. -/
def textBlockLooksError (t : String) : Bool :=
  t ≠ "" ∧ (strContainsSub t "Error:" ∨ strContainsSub (t.toLower.take 50) "error")

/-- Events yielded for the blocks of one `AssistantMessage` (after its
`turn_count` increment; `turns` is the incremented count). -/
def assistantBlockEvents (turns : Int) : AsstBlock → List StreamEvt
  | AsstBlock.textB t =>
    if textBlockLooksError t then
      [{ type := "text", content := Json.str t, metadata := [("turn", jint turns)] }]
    else []
  | AsstBlock.toolUseB i n inp =>
    [{ type := "tool_use"
       content := Json.obj [("id", Json.str i), ("name", Json.str n), ("input", inp)]
       metadata := [("turn", jint turns)] }]
  | AsstBlock.thinkingB t =>
    [{ type := "thinking", content := Json.str t, metadata := [("turn", jint turns)] }]
  | AsstBlock.otherB => []

def userBlockEvents (turns : Int) : UserBlock → List StreamEvt
  | UserBlock.toolResultB tid c isErr =>
    [{ type := "tool_result"
       content := Json.obj [("tool_use_id", Json.str tid), ("content", c),
         ("is_error", Json.bool isErr)]
       metadata := [("turn", jint turns)] }]
  | UserBlock.otherUB => []

/-- Events yielded while handling one non-`ResultMessage` message, with the
updated block state and turn count. -/
def processMsg (m : SdkMsg) (bs : BlockState) (turns : Int) :
    List StreamEvt × BlockState × Int :=
  match m with
  | SdkMsg.streamEvt uuid raw =>
    let (evts, bs2) := process_stream_event uuid raw bs
    (evts, bs2, turns)
  | SdkMsg.system subtype data =>
    if subtype = "init" then
      match data with
      | some d =>
        ([{ type := "system"
            content := Json.obj [("sdk_session_id", (pyDictGet d "session_id").getD Json.null),
              ("slash_commands", pyDictGetD d "slash_commands" (Json.arr []))]
            metadata := [("subtype", Json.str "init")] }], bs, turns)
      | none => ([], bs, turns)
    else ([], bs, turns)
  | SdkMsg.assistant err blocks =>
    let turns2 := turns + 1
    let errEvts :=
      match err with
      | some e => [{ type := "error", content := Json.str e
                     metadata := [("turn", jint turns2), ("source", Json.str "assistant")] }]
      | none => ([] : List StreamEvt)
    (errEvts ++ (blocks.map (assistantBlockEvents turns2)).flatten, bs, turns2)
  | SdkMsg.userStr content =>
    let (c, isErr) := slashCommandCleanup content
    ([{ type := "text", content := Json.str c
        metadata := [("turn", jint turns), ("source", Json.str "slash_command"),
          ("is_error", Json.bool isErr)] }], bs, turns)
  | SdkMsg.userBlocks blocks =>
    ((blocks.map (userBlockEvents turns)).flatten, bs, turns)
  | SdkMsg.result _ _ _ _ _ _ => ([], bs, turns)

/-- The error event yielded for a `ResultMessage` with `is_error` set
(session_manager.py lines 439-445): its content is `getattr(msg, "result",
"Unknown error")`, i.e. the `result` attribute itself (possibly `None`). -/
def resultErrorEvent (resultVal : Option String) (subtype : String) : StreamEvt :=
  { type := "error"
    content := (resultVal.map Json.str).getD Json.null
    metadata := [("source", Json.str "result"), ("subtype", Json.str subtype)] }

/-- The message loop of `stream_message` up to (and including) the break on a
`ResultMessage`: yielded events, final block state and turn count, the last
message bound to `msg`, and whether the loop broke on a result. -/
def streamBody : List SdkMsg → BlockState → Int → Option SdkMsg →
    List StreamEvt × BlockState × Int × Option SdkMsg × Bool
  | [], bs, turns, lastMsg => ([], bs, turns, lastMsg, false)
  | m :: rest, bs, turns, _ =>
    match m with
    | SdkMsg.result isErr resultVal subtype _ _ _ =>
      ((if isErr then [resultErrorEvent resultVal subtype] else []), bs, turns, some m, true)
    | _ =>
      let r := processMsg m bs turns
      let r2 := streamBody rest r.2.1 r.2.2 (some m)
      (r.1 ++ r2.1, r2.2)

/-- The `usage_info` merged into the `done` event: present only when the last
message is a `ResultMessage` (the only message type carrying those
attributes); a falsy `usage` is skipped. -/
def doneUsageInfo : Option SdkMsg → List (String × Json)
  | some (SdkMsg.result _ _ _ cost usage dur) =>
    [("cost_usd", cost)] ++ (if pyTruthy usage then [("usage", usage)] else [])
      ++ [("duration_ms", dur)]
  | _ => []

def doneEvent (lastMsg : Option SdkMsg) (turns : Int) : StreamEvt :=
  { type := "done"
    content := Json.obj ([("total_turns", jint turns)] ++ doneUsageInfo lastMsg) }

/-- An exception observed inside the `try` of `stream_message`. -/
structure PyExc where
  message : String
  typeName : String
  deriving Repr

def excErrorEvent (e : PyExc) : StreamEvt :=
  { type := "error", content := Json.str e.message
    metadata := [("error_type", Json.str e.typeName)] }

/-- `str(NameError)` for the unbound loop variable `msg` when
`receive_messages()` yields nothing at all. -/
def nameErrorMsg : String :=
  "name " ++ String.singleton aposChar ++ "msg" ++ String.singleton aposChar
    ++ " is not defined"

/-- `SessionManager.stream_message` (lines 272-468) as a function of the
client's message sequence and of an exception the client machinery raises
after delivering them (`none` = the iterator just ends).  A broken-off loop
(result message) is followed by the `done` event; a raised exception lands in
the `except` branch, which yields a single `error` event and ends the
generator; a normally-exhausted empty iterator leaves `msg` unbound and the
resulting `NameError` is caught by the same branch. -/
def stream_message (clientPresent : Bool) (msgs : List SdkMsg)
    (raiseAfter : Option PyExc) : List StreamEvt :=
  if ¬ clientPresent then
    [{ type := "error", content := Json.str "Session not initialized" }]
  else
    let r := streamBody msgs { blocks := [], usage := none } 0 none
    if r.2.2.2.2 then r.1 ++ [doneEvent r.2.2.2.1 r.2.2.1]
    else
      match raiseAfter with
      | some exc => r.1 ++ [excErrorEvent exc]
      | none =>
        match r.2.2.2.1 with
        | none => r.1 ++ [excErrorEvent { message := nameErrorMsg, typeName := "NameError" }]
        | some m => r.1 ++ [doneEvent (some m) r.2.2.1]


/-! ## Observers used by the statements below -/

/-- The verdict value `_parse_checker_verdict` extracts when the string it
hands to `json.loads` parses to a dict (`none` otherwise: decode error, or a
non-dict whose `.get` raises `AttributeError`). -/
def parsedVerdict (text : String) : Option Json :=
  match pyJsonLoads (checkerJsonStr text) with
  | some (Json.obj fields) => some (pyDictGetD fields "verdict" (Json.str "failed"))
  | _ => none

/-- In-memory cached events of a session. -/
def eventsOf (st : TaskRunnerState) (sid : String) : Option (List PyDict) :=
  (assocGet st.sessions sid).map (fun s => s.events)

/-- Current execution record of a session. -/
def executionOf (st : TaskRunnerState) (sid : String) : Option TaskExecution :=
  (assocGet st.sessions sid).bind (fun s => s.execution)

/-- Subscriber queues of a session. -/
def subscribersOf (st : TaskRunnerState) (sid : String) : Option (List SubQueue) :=
  (assocGet st.sessions sid).map (fun s => s.subscribers)

/-- Contents of the on-disk `events.jsonl` log of a session. -/
def diskEventsOf (st : TaskRunnerState) (sid : String) : List PyDict :=
  (assocGet st.diskEvents sid).getD []

/-- The `has_unread` flag the status query reports for a session. -/
def statusHasUnread (st : TaskRunnerState) (sid : String) : Option Bool :=
  (assocGet (get_all_status st) sid).bind (fun d =>
    match pyDictGet d "has_unread" with
    | some (Json.bool b) => some b
    | _ => none)

/-- No message of the turn is a `ResultMessage`. -/
def noResultMsg (msgs : List SdkMsg) : Bool :=
  msgs.all (fun m => ¬ m.isResult)

/-! ## Helper lemmas -/

theorem find_keyMap_self {α : Type} (m : List (String × α)) (k : String) (v : α)
    (hm : m.any (fun p => p.1 = k) = true) :
    List.find? (fun p => p.1 = k) (m.map (fun p => if p.1 = k then (k, v) else p))
      = some (k, v) := by
  induction m with
  | nil => simp at hm
  | cons p rest ih =>
    by_cases hp : p.1 = k
    · simp [List.find?_cons, hp]
    · have hr : rest.any (fun p => p.1 = k) = true := by
        simpa [List.any_cons, hp] using hm
      simp [List.find?_cons, hp, ih hr]

theorem find_keyMap_ne {α : Type} (m : List (String × α)) (k k2 : String) (v : α)
    (h : k2 ≠ k) :
    List.find? (fun p => p.1 = k2) (m.map (fun p => if p.1 = k then (k, v) else p))
      = List.find? (fun p => p.1 = k2) m := by
  induction m with
  | nil => rfl
  | cons p rest ih =>
    by_cases hp : p.1 = k
    · have h1 : ¬ ((k : String) = k2) := fun hh => h hh.symm
      have h2 : ¬ (p.1 = k2) := by rw [hp]; exact h1
      simp [List.find?_cons, hp, h1, h2, ih]
    · by_cases hp2 : p.1 = k2
      · simp [List.find?_cons, hp, hp2, h]
      · simp [List.find?_cons, hp, hp2, ih]

theorem find_appendSingle_self {α : Type} (m : List (String × α)) (k : String) (v : α)
    (hm : m.any (fun p => p.1 = k) = false) :
    List.find? (fun p => p.1 = k) (m ++ [(k, v)]) = some (k, v) := by
  induction m with
  | nil => simp [List.find?]
  | cons p rest ih =>
    have hp : ¬ (p.1 = k) := by
      intro hh
      simp [List.any_cons, hh] at hm
    have hr : rest.any (fun p => p.1 = k) = false := by
      simpa [List.any_cons, hp] using hm
    simp [List.find?_cons, hp, ih hr]

theorem find_appendSingle_ne {α : Type} (m : List (String × α)) (k k2 : String) (v : α)
    (h : k2 ≠ k) :
    List.find? (fun p => p.1 = k2) (m ++ [(k, v)])
      = List.find? (fun p => p.1 = k2) m := by
  induction m with
  | nil =>
    have h1 : ¬ ((k : String) = k2) := fun hh => h hh.symm
    simp [List.find?, h1]
  | cons p rest ih =>
    by_cases hp2 : p.1 = k2
    · simp [List.find?_cons, hp2]
    · simp [List.find?_cons, hp2, ih]

theorem assocGet_dictSet_self {α : Type} (m : List (String × α)) (k : String) (v : α) :
    assocGet (dictSet m k v) k = some v := by
  unfold dictSet assocGet
  cases hm : (m.any (fun p => p.1 = k)) with
  | true => simp [find_keyMap_self m k v hm]
  | false => simp [find_appendSingle_self m k v hm]

theorem assocGet_dictSet_ne {α : Type} (m : List (String × α)) (k k2 : String) (v : α)
    (h : k2 ≠ k) : assocGet (dictSet m k v) k2 = assocGet m k2 := by
  unfold dictSet assocGet
  cases hm : (m.any (fun p => p.1 = k)) with
  | true => simp [find_keyMap_ne m k k2 v h]
  | false => simp [find_appendSingle_ne m k k2 v h]

theorem status_lookup_aux (sessions : List (String × SessionTaskState)) (sid : String)
    (state : SessionTaskState) (ex : TaskExecution)
    (h : assocGet sessions sid = some state) (hex : state.execution = some ex) :
    assocGet (sessions.filterMap (fun p =>
      match p.2.execution with
      | some e => some (p.1, statusEntry e)
      | none => none)) sid = some (statusEntry ex) := by
  induction sessions with
  | nil => simp [assocGet] at h
  | cons p rest ih =>
    by_cases hp : p.1 = sid
    · have hstate : p.2 = state := by
        simpa [assocGet, List.find?_cons, hp] using h
      rw [List.filterMap_cons, hstate, hex]
      simp [assocGet, List.find?_cons, hp]
    · have h2 : assocGet rest sid = some state := by
        simpa [assocGet, List.find?_cons, hp] using h
      rw [List.filterMap_cons]
      cases hpe : p.2.execution with
      | none => simpa using ih h2
      | some e2 =>
        have := ih h2
        simpa [assocGet, List.find?_cons, hp] using this

theorem get_all_status_lookup (st : TaskRunnerState) (sid : String)
    (state : SessionTaskState) (ex : TaskExecution)
    (h : assocGet st.sessions sid = some state) (hex : state.execution = some ex) :
    assocGet (get_all_status st) sid = some (statusEntry ex) := by
  unfold get_all_status
  exact status_lookup_aux st.sessions sid state ex h hex

theorem streamBody_noResult (msgs : List SdkMsg) (hm : noResultMsg msgs = true) :
    ∀ bs turns lastMsg, (streamBody msgs bs turns lastMsg).2.2.2.2 = false := by
  induction msgs with
  | nil => intro bs turns lastMsg; rfl
  | cons m rest ih =>
    intro bs turns lastMsg
    have hparts := hm
    simp only [noResultMsg, List.all_cons, Bool.and_eq_true] at hparts
    have hm2 : noResultMsg rest = true := hparts.2
    have hmr : m.isResult = false := by
      have := hparts.1
      simpa using this
    cases m with
    | result a b c d e f => simp [SdkMsg.isResult] at hmr
    | streamEvt u r =>
      simp only [streamBody]
      exact ih hm2 _ _ _
    | system s d =>
      simp only [streamBody]
      exact ih hm2 _ _ _
    | assistant e b =>
      simp only [streamBody]
      exact ih hm2 _ _ _
    | userStr c =>
      simp only [streamBody]
      exact ih hm2 _ _ _
    | userBlocks b =>
      simp only [streamBody]
      exact ih hm2 _ _ _

theorem streamBody_append (xs ys : List SdkMsg) (hx : noResultMsg xs = true) :
    ∀ bs turns lastMsg,
      streamBody (xs ++ ys) bs turns lastMsg =
        ((streamBody xs bs turns lastMsg).1
            ++ (streamBody ys (streamBody xs bs turns lastMsg).2.1
                  (streamBody xs bs turns lastMsg).2.2.1
                  (streamBody xs bs turns lastMsg).2.2.2.1).1,
         (streamBody ys (streamBody xs bs turns lastMsg).2.1
            (streamBody xs bs turns lastMsg).2.2.1
            (streamBody xs bs turns lastMsg).2.2.2.1).2) := by
  induction xs with
  | nil => intro bs turns lastMsg; simp [streamBody]
  | cons m rest ih =>
    intro bs turns lastMsg
    have hparts := hx
    simp only [noResultMsg, List.all_cons, Bool.and_eq_true] at hparts
    have hm2 : noResultMsg rest = true := hparts.2
    have hmr : m.isResult = false := by
      have := hparts.1
      simpa using this
    cases m with
    | result a b c d e f => simp [SdkMsg.isResult] at hmr
    | streamEvt u r =>
      simp only [List.cons_append, streamBody, List.append_eq]
      rw [ih hm2]
      simp [List.append_assoc]
    | system s d =>
      simp only [List.cons_append, streamBody, List.append_eq]
      rw [ih hm2]
      simp [List.append_assoc]
    | assistant e b =>
      simp only [List.cons_append, streamBody, List.append_eq]
      rw [ih hm2]
      simp [List.append_assoc]
    | userStr c =>
      simp only [List.cons_append, streamBody, List.append_eq]
      rw [ih hm2]
      simp [List.append_assoc]
    | userBlocks b =>
      simp only [List.cons_append, streamBody, List.append_eq]
      rw [ih hm2]
      simp [List.append_assoc]

/-! ## Claims -/

/-- C9: for a session id with no in-memory task state (nothing started,
nothing restored), `subscribe` terminates immediately yielding no events —
it neither raises nor reports a session-not-found error. -/
theorem C9_subscribe_unknown_session (st : TaskRunnerState) (sid : String)
    (h : assocGet st.sessions sid = none) :
    subscribe st sid = ([], none) := by
  unfold subscribe
  rw [h]

/-- Witness for C9 at the empty runner state. -/
theorem C9_subscribe_unknown_session_witness :
    subscribe { sessions := [], diskCurrent := [], diskEvents := [] } "ghost" = ([], none) :=
  C9_subscribe_unknown_session { sessions := [], diskCurrent := [], diskEvents := [] } "ghost" rfl

/-- C5: starting a task on a session whose execution is running fails with the
session-busy error (the multiplexer answers the busy error frame, and
`start_task` raises before creating an execution, clearing the event log, or
touching the existing execution — the state is returned unchanged). -/
theorem C5_busy_session_query_rejected (st : TaskRunnerState)
    (sid prompt tid ts : String) (h : is_running st sid = true) :
    start_task st sid prompt tid ts
      = (st, Except.error ("Session " ++ sid ++ " already has a running task"))
    ∧ (sid ≠ "" → websocket_query_guard st sid = some (sessionBusyFrame sid)) := by
  constructor
  · unfold is_running at h
    unfold start_task
    simp only [h]
    simp
  · intro hs
    unfold websocket_query_guard
    simp [hs, h]

/-- Witness for C5: a freshly started session is busy; a second start is
rejected with the busy error and the state is unchanged. -/
theorem C5_busy_session_query_rejected_witness :
    start_task (start_task { sessions := [], diskCurrent := [], diskEvents := [] } "s1" "p" "t1" "T0").1
        "s1" "q" "t2" "T1"
      = ((start_task { sessions := [], diskCurrent := [], diskEvents := [] } "s1" "p" "t1" "T0").1,
         Except.error "Session s1 already has a running task")
    ∧ websocket_query_guard
        (start_task { sessions := [], diskCurrent := [], diskEvents := [] } "s1" "p" "t1" "T0").1 "s1"
      = some (sessionBusyFrame "s1") := by
  have h := C5_busy_session_query_rejected
    (start_task { sessions := [], diskCurrent := [], diskEvents := [] } "s1" "p" "t1" "T0").1
    "s1" "q" "t2" "T1" (by rfl)
  exact ⟨h.1, h.2 (by decide)⟩

/-- C7: with a non-terminal status and the cycle count at (or past) the
budget, `run_once` diverts to `_handle_max_cycles` and never reaches the
Worker invocation: when the reset policy permits and the reset counter is
below the limit the session is reset (cycle count zeroed, the task's initial
inputs restored, status back to pending, reset counter incremented);
otherwise the session fails with reason `max_cycles`. -/
theorem C7_max_cycles_guard (s : OrchSession) (now : String)
    (h1 : s.status ≠ "completed") (h2 : s.status ≠ "failed")
    (hc : s.cycle_count ≥ s.max_cycles) :
    run_once_pre s now = RunOncePre.maxCycles (orch_handle_max_cycles s now)
    ∧ (∀ s2, run_once_pre s now ≠ RunOncePre.invokeWorker s2)
    ∧ (s.reset_on_max_cycles = true → 0 < s.max_resets → s.reset_count < s.max_resets →
        orch_handle_max_cycles s now =
          { s with reset_count := s.reset_count + 1, cycle_count := 0,
                   status := "pending", input_payload := s.task_inputs, updated_at := now })
    ∧ (s.reset_on_max_cycles = false ∨ orch_can_reset s = false →
        orch_handle_max_cycles s now =
          { s with status := "failed", last_error := some "max_cycles", updated_at := now }) := by
  have hguard : run_once_pre s now = RunOncePre.maxCycles (orch_handle_max_cycles s now) := by
    unfold run_once_pre
    simp [h1, h2, hc]
  refine ⟨hguard, ?_, ?_, ?_⟩
  · intro s2
    rw [hguard]
    intro hcontra
    exact RunOncePre.noConfusion hcontra
  · intro hr hm hcnt
    unfold orch_handle_max_cycles orch_can_reset orch_reset_session
    have hm2 : ¬ (s.max_resets ≤ 0) := by omega
    simp [hr, hm2, hcnt]
  · intro hor
    unfold orch_handle_max_cycles
    cases hor with
    | inl hfalse => simp [hfalse]
    | inr hcr => simp [hcr]

/-- Witness for C7: a pending session with cycle budget 0 and no reset policy
is failed with reason `max_cycles` without invoking the Worker. -/
theorem C7_max_cycles_guard_witness :
    run_once_pre
        { session_id := "t", status := "pending", cycle_count := 0, max_cycles := 0,
          input_payload := [], task_inputs := [], reset_on_max_cycles := false,
          reset_count := 0, max_resets := 0, last_error := none, updated_at := "T0" } "T1"
      = RunOncePre.maxCycles
          { session_id := "t", status := "failed", cycle_count := 0, max_cycles := 0,
            input_payload := [], task_inputs := [], reset_on_max_cycles := false,
            reset_count := 0, max_resets := 0, last_error := some "max_cycles",
            updated_at := "T1" }
    ∧ ∀ s2, run_once_pre
        { session_id := "t", status := "pending", cycle_count := 0, max_cycles := 0,
          input_payload := [], task_inputs := [], reset_on_max_cycles := false,
          reset_count := 0, max_resets := 0, last_error := none, updated_at := "T0" } "T1"
      ≠ RunOncePre.invokeWorker s2 := by
  have h := C7_max_cycles_guard
    { session_id := "t", status := "pending", cycle_count := 0, max_cycles := 0,
      input_payload := [], task_inputs := [], reset_on_max_cycles := false,
      reset_count := 0, max_resets := 0, last_error := none, updated_at := "T0" } "T1"
    (by decide) (by decide) (by decide)
  refine ⟨?_, h.2.1⟩
  have h4 := h.2.2.2 (Or.inl rfl)
  rw [h.1, h4]

/-- C10: when the pending ask-user request resolves with an empty answers
object, `request_user_input` returns that empty object, appends no
`ask_user_result` event (only the original `ask_user` request event is in the
log), and the `AskUserQuestion` tool call is denied with
"User did not provide an answer" — the same denial as when no answer is
given at all. -/
theorem C10_empty_answers_denied (st : TaskRunnerState) (rid : String)
    (questions : Json) (sid : String) (tv : Json) (now : Nat) (h : sid ≠ "") :
    request_user_input st rid questions sid tv (AskOutcome.resolved (Json.obj [])) now
      = (append_event st sid (ask_user_event rid questions tv sid) now, Json.obj [])
    ∧ ask_user_question_decision questions (Json.obj [])
        = PermissionDecision.deny "User did not provide an answer"
    ∧ ask_user_question_decision questions Json.null
        = PermissionDecision.deny "User did not provide an answer" := by
  refine ⟨?_, rfl, rfl⟩
  unfold request_user_input
  simp [h, pyTruthy]

/-- Witness for C10 at a concrete session. -/
theorem C10_empty_answers_denied_witness :
    request_user_input { sessions := [], diskCurrent := [], diskEvents := [] } "r1"
        (Json.arr []) "s1" (Json.num "55.0") (AskOutcome.resolved (Json.obj [])) 7
      = (append_event { sessions := [], diskCurrent := [], diskEvents := [] } "s1"
          (ask_user_event "r1" (Json.arr []) (Json.num "55.0") "s1") 7, Json.obj [])
    ∧ ask_user_question_decision (Json.arr []) (Json.obj [])
        = PermissionDecision.deny "User did not provide an answer" := by
  have h := C10_empty_answers_denied { sessions := [], diskCurrent := [], diskEvents := [] }
    "r1" (Json.arr []) "s1" (Json.num "55.0") 7 (by decide)
  exact ⟨h.1, h.2.1⟩

/-- C2 counterexample: the claim says every subscriber push buffer has
capacity at least 1024, but the queue `subscribe` creates for a subscriber of
a (non-terminal) session has `maxsize = 1000`, and 1000 < 1024. -/
theorem C2_capacity_counterexample :
    ((subscribe (start_task { sessions := [], diskCurrent := [], diskEvents := [] }
        "s1" "p" "t1" "T0").1 "s1").2.map (fun st2 => subscribersOf st2 "s1"))
      = some (some [{ maxsize := 1000, items := [] }])
    ∧ ¬ (1024 ≤ 1000) :=
  ⟨by rfl, by decide⟩

/-- C2 (amended): the subscriber push buffer is bounded with capacity 1000
(not ≥ 1024): `subscribe` creates each subscriber queue with
`maxsize = 1000`, and on append a full queue drops the new event for that
subscriber only — the non-blocking `put_nowait` never blocks the producer,
and the on-disk log, the in-memory cache, and every non-full subscriber
still receive the event. -/
theorem C2_bounded_subscriber_buffer (st : TaskRunnerState) (sid : String)
    (state : SessionTaskState) (e : PyDict) (now : Nat)
    (h : assocGet st.sessions sid = some state) :
    diskEventsOf (append_event st sid e now) sid
      = diskEventsOf st sid ++ [dictSet e "timestamp" (Json.num (toString now))]
    ∧ eventsOf (append_event st sid e now) sid
      = some (state.events ++ [dictSet e "timestamp" (Json.num (toString now))])
    ∧ subscribersOf (append_event st sid e now) sid
      = some (state.subscribers.map (pushNowait (dictSet e "timestamp" (Json.num (toString now)))))
    ∧ (∀ q : SubQueue, q.maxsize ≠ 0 → q.maxsize ≤ q.items.length →
        pushNowait (dictSet e "timestamp" (Json.num (toString now))) q = q)
    ∧ (∀ q : SubQueue, q.items.length < q.maxsize →
        pushNowait (dictSet e "timestamp" (Json.num (toString now))) q
          = { q with items := q.items ++ [dictSet e "timestamp" (Json.num (toString now))] })
    ∧ (state.execution.any (fun ex => ex.status = "completed" ∨ ex.status = "error") = false →
        subscribersOf ((subscribe st sid).2.getD st) sid
          = some (state.subscribers ++ [{ maxsize := 1000, items := [] }])) := by
  refine ⟨?_, ?_, ?_, ?_, ?_, ?_⟩
  · unfold append_event
    rw [h]
    cases hex : state.execution with
    | none => simp [hex, diskEventsOf, saveExecution, assocGet_dictSet_self]
    | some ex => simp [hex, diskEventsOf, saveExecution, assocGet_dictSet_self]
  · unfold append_event
    rw [h]
    cases hex : state.execution with
    | none => simp [hex, eventsOf, saveExecution, assocGet_dictSet_self]
    | some ex => simp [hex, eventsOf, saveExecution, assocGet_dictSet_self]
  · unfold append_event
    rw [h]
    cases hex : state.execution with
    | none => simp [hex, subscribersOf, saveExecution, assocGet_dictSet_self]
    | some ex => simp [hex, subscribersOf, saveExecution, assocGet_dictSet_self]
  · intro q h0 hlen
    simp [pushNowait, h0, hlen, ge_iff_le]
  · intro q hlt
    have h2 : ¬ (q.maxsize ≤ q.items.length) := Nat.not_le.mpr hlt
    simp [pushNowait, h2]
  · intro hterm
    unfold subscribe
    rw [h]
    simp only [hterm]
    simp [subscribersOf, assocGet_dictSet_self]

/-- Witness for C2 (amended) at a session with a full and a non-full
subscriber queue: the full queue drops the event, the other receives it,
and the disk log records it. -/
theorem C2_bounded_subscriber_buffer_witness :
    diskEventsOf (append_event
        { sessions := [("s1",
            { execution := none, events := [],
              subscribers := [{ maxsize := 1, items := [[("type", Json.str "old")]] },
                              { maxsize := 1000, items := [] }] })],
          diskCurrent := [], diskEvents := [] } "s1" [("type", Json.str "text")] 3) "s1"
      = [[("type", Json.str "text"), ("timestamp", Json.num "3")]]
    ∧ subscribersOf (append_event
        { sessions := [("s1",
            { execution := none, events := [],
              subscribers := [{ maxsize := 1, items := [[("type", Json.str "old")]] },
                              { maxsize := 1000, items := [] }] })],
          diskCurrent := [], diskEvents := [] } "s1" [("type", Json.str "text")] 3) "s1"
      = some [{ maxsize := 1, items := [[("type", Json.str "old")]] },
              { maxsize := 1000, items := [[("type", Json.str "text"),
                ("timestamp", Json.num "3")]] }] := by
  have h := C2_bounded_subscriber_buffer
    { sessions := [("s1",
        { execution := none, events := [],
          subscribers := [{ maxsize := 1, items := [[("type", Json.str "old")]] },
                          { maxsize := 1000, items := [] }] })],
      diskCurrent := [], diskEvents := [] } "s1"
    { execution := none, events := [],
      subscribers := [{ maxsize := 1, items := [[("type", Json.str "old")]] },
                      { maxsize := 1000, items := [] }] }
    [("type", Json.str "text")] 3 (by rfl)
  refine ⟨?_, ?_⟩
  · have h1 := h.1
    simpa using h1
  · have h3 := h.2.2.1
    rw [h3]
    rfl

theorem statusHasUnread_formula (st : TaskRunnerState) (sid : String)
    (state : SessionTaskState) (ex : TaskExecution)
    (h : assocGet st.sessions sid = some state) (hex : state.execution = some ex) :
    statusHasUnread st sid
      = some (decide ((ex.status = "completed" ∨ ex.status = "error")
          ∧ ¬ ex.was_viewed = true)) := by
  unfold statusHasUnread
  rw [get_all_status_lookup st sid state ex h hex]
  simp [statusEntry, pyDictGet]

theorem markViewed_sessions (st : TaskRunnerState) (sid : String)
    (state : SessionTaskState) (ex : TaskExecution)
    (h : assocGet st.sessions sid = some state) (hex : state.execution = some ex) :
    (mark_viewed st sid).sessions
      = dictSet st.sessions sid
          { state with execution := some { ex with was_viewed := true } } := by
  unfold mark_viewed
  rw [h]
  simp [hex, saveExecution]

theorem run_task_step_done_exec (st : TaskRunnerState) (sid : String)
    (state : SessionTaskState) (ex : TaskExecution) (ev : PyDict) (now : Nat) (ca : String)
    (h : assocGet st.sessions sid = some state) (hex : state.execution = some ex)
    (hty : pyDictGet ev "type" = some (Json.str "done")) :
    executionOf (run_task_step st sid ev now ca) sid
      = some { ex with event_count := state.events.length + 1,
                       status := "completed", completed_at := some ca } := by
  unfold run_task_step append_event
  rw [h]
  rw [hty]
  simp [hex, executionOf, saveExecution, assocGet_dictSet_self]

theorem statusHasUnread_of_exec (st : TaskRunnerState) (sid : String) (ex : TaskExecution)
    (h : executionOf st sid = some ex) :
    statusHasUnread st sid
      = some (decide ((ex.status = "completed" ∨ ex.status = "error")
          ∧ ¬ ex.was_viewed = true)) := by
  unfold executionOf at h
  cases hs : assocGet st.sessions sid with
  | none => rw [hs] at h; simp at h
  | some state =>
    rw [hs] at h
    simp at h
    exact statusHasUnread_formula st sid state ex hs h

theorem start_task_fresh (st : TaskRunnerState) (sid p tid ts : String)
    (h : is_running st sid = false) :
    assocGet (start_task st sid p tid ts).1.sessions sid
      = some ({ execution :=
                  some ({ task_id := tid, session_id := sid, prompt := p,
                          status := "running", started_at := ts } : TaskExecution),
                events := [], subscribers := [] } : SessionTaskState)
    ∧ (start_task st sid p tid ts).2 = Except.ok tid := by
  unfold is_running at h
  unfold start_task
  simp only [h]
  simp [saveExecution, assocGet_dictSet_self]

/-- C4 counterexample: the claim says that after `mark_viewed(s)` the session
becomes unread again at the next terminal event on `s`.  But the terminal
transition does not clear the viewed flag: start a task, mark it viewed while
running, then deliver the `done` event — the execution is terminal
(`completed`) yet `has_unread` is still `false`. -/
theorem C4_viewed_counterexample :
    statusHasUnread (mark_viewed
      (start_task { sessions := [], diskCurrent := [], diskEvents := [] }
        "s1" "p" "t1" "T0").1 "s1") "s1" = some false
    ∧ (executionOf (run_task_step (mark_viewed
        (start_task { sessions := [], diskCurrent := [], diskEvents := [] }
          "s1" "p" "t1" "T0").1 "s1") "s1" [("type", Json.str "done")] 5 "T1")
        "s1").map (fun ex => ex.status) = some "completed"
    ∧ statusHasUnread (run_task_step (mark_viewed
        (start_task { sessions := [], diskCurrent := [], diskEvents := [] }
          "s1" "p" "t1" "T0").1 "s1") "s1" [("type", Json.str "done")] 5 "T1")
        "s1" = some false :=
  ⟨by rfl, by rfl, by rfl⟩

/-- C4 (amended): the status query reports `has_unread` exactly when the
execution's status is completed or error and its viewed flag is false; after
`mark_viewed(s)`, `has_unread(s)` is false, and it remains false even at a
terminal event of the same execution, because the terminal transition does
not clear the viewed flag; the session becomes unread again when a task
started later — whose fresh execution carries a cleared viewed flag —
reaches its terminal event. -/
theorem C4_has_unread :
    (∀ st sid ex, executionOf st sid = some ex →
      statusHasUnread st sid
        = some (decide ((ex.status = "completed" ∨ ex.status = "error")
            ∧ ¬ ex.was_viewed = true)))
    ∧ (∀ st sid state ex, assocGet st.sessions sid = some state →
        state.execution = some ex →
        statusHasUnread (mark_viewed st sid) sid = some false)
    ∧ (∀ st sid state ex ev now ca, assocGet st.sessions sid = some state →
        state.execution = some ex → ex.was_viewed = true →
        pyDictGet ev "type" = some (Json.str "done") →
        statusHasUnread (run_task_step st sid ev now ca) sid = some false)
    ∧ (∀ st sid p tid ts ev now ca, is_running st sid = false →
        pyDictGet ev "type" = some (Json.str "done") →
        statusHasUnread (run_task_step (start_task st sid p tid ts).1 sid ev now ca)
          sid = some true) := by
  refine ⟨?_, ?_, ?_, ?_⟩
  · intro st sid ex h
    exact statusHasUnread_of_exec st sid ex h
  · intro st sid state ex h hex
    have hmv := markViewed_sessions st sid state ex h hex
    have hexec : executionOf (mark_viewed st sid) sid
        = some { ex with was_viewed := true } := by
      unfold executionOf
      rw [hmv, assocGet_dictSet_self]
      rfl
    rw [statusHasUnread_of_exec _ _ _ hexec]
    simp
  · intro st sid state ex ev now ca h hex hv hty
    have hexec := run_task_step_done_exec st sid state ex ev now ca h hex hty
    rw [statusHasUnread_of_exec _ _ _ hexec]
    simp [hv]
  · intro st sid p tid ts ev now ca h hty
    have hfresh := (start_task_fresh st sid p tid ts h).1
    have hexec := run_task_step_done_exec (start_task st sid p tid ts).1 sid
      _ _ ev now ca hfresh rfl hty
    rw [statusHasUnread_of_exec _ _ _ hexec]
    simp

/-- Witness for C4 (amended): a fresh task marked viewed stays read at its own
`done`; a later task's `done` makes the session unread. -/
theorem C4_has_unread_witness :
    statusHasUnread (mark_viewed
      (start_task { sessions := [], diskCurrent := [], diskEvents := [] }
        "s1" "p" "t1" "T0").1 "s1") "s1" = some false
    ∧ statusHasUnread (run_task_step
        (start_task { sessions := [], diskCurrent := [], diskEvents := [] }
          "s1" "p" "t1" "T0").1 "s1" [("type", Json.str "done")] 5 "T1") "s1"
      = some true := by
  refine ⟨?_, ?_⟩
  · exact C4_has_unread.2.1
      (start_task { sessions := [], diskCurrent := [], diskEvents := [] }
        "s1" "p" "t1" "T0").1 "s1" _ _ (by rfl) (by rfl)
  · exact C4_has_unread.2.2.2
      { sessions := [], diskCurrent := [], diskEvents := [] } "s1" "p" "t1" "T0"
      [("type", Json.str "done")] 5 "T1" (by rfl) (by rfl)

/-- C8 counterexample: the claim says a corrupt (malformed JSON) session file
"fails on direct load", in contrast with a missing session's not-found
indicator; but `get_session` catches the exception and returns `None` — the
very not-found indicator — so the direct load of a corrupt file is
indistinguishable from a missing session. -/
theorem C8_corrupt_load_counterexample :
    pyJsonLoads "\x7bnot json" = none
    ∧ get_session (some "\x7bnot json") = none
    ∧ get_session (some "\x7bnot json") = get_session none :=
  ⟨by rfl, by rfl, by rfl⟩

/-- C8 (amended): loading a missing session returns the not-found indicator
(`None`) and is not an error; a corrupt (malformed JSON) file is skipped by
the listing, which never aborts — listing a directory with the corrupt file
equals listing it without — while a direct load of the corrupt file also
returns the not-found indicator rather than a distinguishable failure. -/
theorem C8_storage_load_behavior :
    get_session none = none
    ∧ (∀ c, pyJsonLoads c = none → get_session (some c) = none)
    ∧ (∀ pre post name c, pyJsonLoads c = none →
        list_sessions (pre ++ [(name, c)] ++ post) = list_sessions (pre ++ post)) := by
  refine ⟨rfl, ?_, ?_⟩
  · intro c hc
    unfold get_session
    simp [hc]
  · intro pre post name c hc
    unfold list_sessions
    congr 1
    simp [List.filterMap_append, hc]

/-- Witness for C8: one well-formed session file plus one corrupt file list
the same as the well-formed file alone; the corrupt file direct-loads to
the not-found indicator. -/
theorem C8_storage_load_behavior_witness :
    get_session (some "\x7bbroken") = none
    ∧ list_sessions [("a.json",
          "\x7b\"id\": \"A\", \"title\": \"T\", \"created_at\": 1, \"updated_at\": 2\x7d"),
        ("b.json", "\x7bbroken")]
      = list_sessions [("a.json",
          "\x7b\"id\": \"A\", \"title\": \"T\", \"created_at\": 1, \"updated_at\": 2\x7d")] := by
  refine ⟨C8_storage_load_behavior.2.1 "\x7bbroken" (by rfl), ?_⟩
  have h := C8_storage_load_behavior.2.2
    [("a.json", "\x7b\"id\": \"A\", \"title\": \"T\", \"created_at\": 1, \"updated_at\": 2\x7d")]
    [] "b.json" "\x7bbroken" (by rfl)
  simpa using h

theorem isPassedVerdict_iff (v : Json) :
    isPassedVerdict v = true ↔ v = Json.str "passed" := by
  cases v <;> simp [isPassedVerdict]

/-- C1 counterexample: the claim says the first syntactically valid JSON
object contained in the checker text wins, so for a text whose first valid
JSON object is `{"verdict": "passed"}` the result should pass.  But the
fallback regex `\{.*\}` is greedy: on `{"verdict": "passed"} tail}` it
matches through the final brace, `json.loads` fails on that span, and the
result is the failed `checker_parsing_error` verdict. -/
theorem C1_first_json_counterexample :
    pyJsonLoads "\x7b\"verdict\": \"passed\"\x7d"
      = some (Json.obj [("verdict", Json.str "passed")])
    ∧ strContainsSub "\x7b\"verdict\": \"passed\"\x7d tail\x7d"
        "\x7b\"verdict\": \"passed\"\x7d" = true
    ∧ (parse_checker_verdict none "\x7b\"verdict\": \"passed\"\x7d tail\x7d").passed
        = false
    ∧ (parse_checker_verdict none "\x7b\"verdict\": \"passed\"\x7d tail\x7d").reason
        = some "checker_parsing_error" :=
  ⟨by rfl, by rfl, by rfl, by rfl⟩

/-- C1 (amended): verdict parsing tolerates a ```json fence (the fenced
content is what is parsed); without a fence the span from the first brace
through the LAST brace of the text is parsed (the whole text when there is
no such span) and wins only if that entire span is valid JSON;
`verdict="passed"` is the only verdict yielding a passing `CheckerResult`;
on parse failure — or when the parsed value is not an object — the result is
the failed `checker_parsing_error` verdict. -/
theorem C1_checker_verdict (text : String) :
    ((parse_checker_verdict none text).passed = true ↔
      parsedVerdict text = some (Json.str "passed"))
    ∧ (parsedVerdict text = none →
        parse_checker_verdict none text = checkerParsingError text)
    ∧ (∀ s, extractFencedJson text = some s → checkerJsonStr text = s)
    ∧ (extractFencedJson text = none →
        checkerJsonStr text = (extractBraceSpan text).getD text) := by
  refine ⟨?_, ?_, ?_, ?_⟩
  · unfold parse_checker_verdict parsedVerdict
    cases hj : pyJsonLoads (checkerJsonStr text) with
    | none => simp [hj, checkerParsingError]
    | some j =>
      cases j with
      | obj fields =>
        simp only [hj]
        by_cases hv : isPassedVerdict (pyDictGetD fields "verdict" (Json.str "failed")) = true
        · simp only [hv, if_true]
          simp [(isPassedVerdict_iff _).mp hv]
        · have hv2 : isPassedVerdict (pyDictGetD fields "verdict" (Json.str "failed")) = false := by
            simpa using hv
          simp only [hv2, Bool.false_eq_true, if_false]
          constructor
          · intro hfalse
            simp at hfalse
          · intro heq
            have hpv := (isPassedVerdict_iff (pyDictGetD fields "verdict" (Json.str "failed"))).mpr
              (by simpa using heq)
            rw [hpv] at hv2
            simp [isPassedVerdict] at hv2
      | null => simp [hj, checkerParsingError]
      | bool b => simp [hj, checkerParsingError]
      | num lx => simp [hj, checkerParsingError]
      | str s => simp [hj, checkerParsingError]
      | arr xs => simp [hj, checkerParsingError]
  · unfold parse_checker_verdict parsedVerdict
    cases hj : pyJsonLoads (checkerJsonStr text) with
    | none => intro _; simp [hj, checkerParsingError]
    | some j =>
      cases j <;> intro hn <;> simp only [hj] at hn ⊢ <;> first
        | rfl
        | (simp at hn)
  · intro s hs
    unfold checkerJsonStr
    rw [hs]
  · intro hn
    unfold checkerJsonStr
    rw [hn]

/-- Witness for C1 (amended): a fenced passed verdict parses to a passing
result through the fence extraction; a text with no JSON at all yields the
`checker_parsing_error` result. -/
theorem C1_checker_verdict_witness :
    (parse_checker_verdict none "```json\n\x7b\"verdict\": \"passed\"\x7d\n```").passed = true
    ∧ checkerJsonStr "```json\n\x7b\"verdict\": \"passed\"\x7d\n```"
        = "\x7b\"verdict\": \"passed\"\x7d"
    ∧ parse_checker_verdict none "no json here"
        = checkerParsingError "no json here" := by
  refine ⟨?_, ?_, ?_⟩
  · exact (C1_checker_verdict "```json\n\x7b\"verdict\": \"passed\"\x7d\n```").1.mpr (by rfl)
  · exact (C1_checker_verdict "```json\n\x7b\"verdict\": \"passed\"\x7d\n```").2.2.1
      "\x7b\"verdict\": \"passed\"\x7d" (by rfl)
  · exact (C1_checker_verdict "no json here").2.1 (by rfl)

/-- C3 counterexample: the claim says an error event is terminal for the
turn; but when a `ResultMessage` arrives with `is_error` set, the generator
yields the error event, breaks, and then still yields a `done` event — an
error event followed by another event. -/
theorem C3_error_not_terminal_counterexample :
    stream_message true [SdkMsg.result true (some "boom") "error_during_execution"
        Json.null Json.null Json.null] none
      = [{ type := "error", content := Json.str "boom",
           metadata := [("source", Json.str "result"),
             ("subtype", Json.str "error_during_execution")] },
         { type := "done", content := Json.obj [("total_turns", Json.num "0"),
           ("cost_usd", Json.null), ("duration_ms", Json.null)] }]
    ∧ (stream_message true [SdkMsg.result true (some "boom") "error_during_execution"
        Json.null Json.null Json.null] none).map (fun e => e.type)
      = ["error", "done"] :=
  ⟨by rfl, by rfl⟩

/-- C3 (amended): on an underlying exception the stream yields one error
event for that exception and ends with it; but an error event is not
terminal in general — an error reported by a `ResultMessage` is followed by
the turn's `done` event (errors attached to assistant messages are likewise
followed by the remaining events of the turn). -/
theorem C3_stream_error_termination :
    (∀ msgs exc, noResultMsg msgs = true →
      stream_message true msgs (some exc)
        = (streamBody msgs { blocks := [], usage := none } 0 none).1
            ++ [excErrorEvent exc])
    ∧ (∀ pre isErr rv sub c u d ra, noResultMsg pre = true →
        stream_message true (pre ++ [SdkMsg.result isErr rv sub c u d]) ra
          = (streamBody pre { blocks := [], usage := none } 0 none).1
              ++ (if isErr then [resultErrorEvent rv sub] else [])
              ++ [doneEvent (some (SdkMsg.result isErr rv sub c u d))
                    (streamBody pre { blocks := [], usage := none } 0 none).2.2.1]) := by
  constructor
  · intro msgs exc hm
    have hb := streamBody_noResult msgs hm { blocks := [], usage := none } 0 none
    unfold stream_message
    simp [hb]
  · intro pre isErr rv sub c u d ra hm
    have happ := streamBody_append pre [SdkMsg.result isErr rv sub c u d] hm
      { blocks := [], usage := none } 0 none
    unfold stream_message
    rw [happ]
    simp [streamBody, List.append_assoc]

/-- Witness for C3 (amended): an exception after one assistant message ends
the stream with a single error event; a result-borne error is followed by
`done`. -/
theorem C3_stream_error_termination_witness :
    stream_message true [SdkMsg.assistant none [AsstBlock.thinkingB "hm"]]
        (some { message := "connection lost", typeName := "RuntimeError" })
      = [{ type := "thinking", content := Json.str "hm",
           metadata := [("turn", Json.num "1")] },
         { type := "error", content := Json.str "connection lost",
           metadata := [("error_type", Json.str "RuntimeError")] }]
    ∧ stream_message true [SdkMsg.result true none "error_max_turns"
        Json.null Json.null Json.null] none
      = [resultErrorEvent none "error_max_turns",
         doneEvent (some (SdkMsg.result true none "error_max_turns"
           Json.null Json.null Json.null)) 0] := by
  constructor
  · have h := C3_stream_error_termination.1
      [SdkMsg.assistant none [AsstBlock.thinkingB "hm"]]
      { message := "connection lost", typeName := "RuntimeError" } (by rfl)
    rw [h]
    rfl
  · have h := C3_stream_error_termination.2 [] true none "error_max_turns"
      Json.null Json.null Json.null none (by rfl)
    rw [List.nil_append] at h
    rw [h]
    rfl

/-- C6: the claim matches the method's documented contract (status flipped to
completed, one synthetic `system` then one `done` event, return `True`), but
the code first calls `session_manager.interrupt_session`, a method that does
not exist on `SessionManager`, so interrupting any running session raises
`AttributeError` before any state change; only the non-running no-op half
(return `False`) behaves as claimed. -/
theorem C6_interrupt_raises_attribute_error :
    interrupt_session (start_task { sessions := [], diskCurrent := [], diskEvents := [] }
        "s1" "p" "t1" "T0").1 "s1" "T1" 5
      = ((start_task { sessions := [], diskCurrent := [], diskEvents := [] }
          "s1" "p" "t1" "T0").1, Except.error interruptAttributeError)
    ∧ interrupt_session { sessions := [], diskCurrent := [], diskEvents := [] }
        "s2" "T1" 5
      = ({ sessions := [], diskCurrent := [], diskEvents := [] }, Except.ok false) :=
  ⟨by rfl, by rfl⟩
